import Mathlib

set_option autoImplicit false

deriving instance DecidableEq for Except

/-- Correlation identifier. The source uses 128-bit random UUIDs
(uuid::Uuid); only equality and freshness matter to the dispatch engine,
so identifiers are embedded as naturals. -/
abbrev Uuid := Nat

/-- One tool invocation envelope: the tagged payload `args` plus an optional
correlation id, mirroring struct ToolArguments (rbx_studio_server.rs lines
26 to 30). The bridge never inspects the payload beyond carrying it, so the
payload type is a parameter. -/
structure ToolArguments (α : Type) where
  args : α
  id : Option Uuid
  deriving DecidableEq

/-- The reply wire format of /response and /proxy: struct RunCommandResponse
(rbx_studio_server.rs lines 32 to 36). -/
structure RunCommandResponse where
  response : String
  id : Uuid
  deriving DecidableEq

/-- Model of the dispatcher inbox sender half,
mpsc::UnboundedSender of Result of String: `sent` records the values pushed
into the channel in order and `alive` records whether the receiver half is
still open. `Except String String` stands for Result of String: `Except.ok`
carries a response text, `Except.error` an error rendered as text. -/
structure Sender where
  sent : List (Except String String)
  alive : Bool
  deriving DecidableEq

/-- Model of UnboundedSender::send: succeeds, appending the message, exactly
when the receiver half is still open; otherwise the send fails. -/
def Sender.send (tx : Sender) (m : Except String String) : Option Sender :=
  if tx.alive then some { tx with sent := tx.sent ++ [m] } else none

/-- A fresh unbounded channel sender: receiver open, nothing sent yet,
as produced by mpsc::unbounded_channel(). -/
def Sender.fresh : Sender :=
  { sent := [], alive := true }

/-- Model of the tokio watch channel backing the change notifier: `version`
is bumped by every send (a pulse) and `receiverCount` counts the live
receiver handles. -/
structure WatchChannel where
  version : Nat
  receiverCount : Nat
  deriving DecidableEq

/-- One watch receiver handle; `seen` is the last version this handle has
observed. -/
structure WatchReceiver where
  seen : Nat
  deriving DecidableEq

/-- Model of watch::Sender::send: fails exactly when no receiver handle is
live, and otherwise bumps the version, an edge observable by every receiver
whose mark is behind it. -/
def WatchChannel.send (c : WatchChannel) : Option WatchChannel :=
  if c.receiverCount = 0 then none else some { c with version := c.version + 1 }

/-- A receiver observes an edge exactly when a pulse happened after the last
version it saw; this is when watch::Receiver::changed resolves. -/
def WatchReceiver.observesEdge (r : WatchReceiver) (c : WatchChannel) : Bool :=
  decide (r.seen < c.version)

/-- Lookup in the correlation map, HashMap::get semantics over the
association-list embedding of output_map. -/
def mapLookup (m : List (Uuid × Sender)) (k : Uuid) : Option Sender :=
  match m with
  | [] => none
  | (k1, v) :: rest => if k1 = k then some v else mapLookup rest k

/-- Removal from the correlation map, HashMap::remove / remove_entry
semantics: the entry for the key, if any, is gone; all other entries stay. -/
def mapRemove (m : List (Uuid × Sender)) (k : Uuid) : List (Uuid × Sender) :=
  match m with
  | [] => []
  | (k1, v) :: rest =>
      if k1 = k then mapRemove rest k else (k1, v) :: mapRemove rest k

/-- Insertion into the correlation map, HashMap::insert semantics: the new
entry replaces any previous entry for the same key. -/
def mapInsert (m : List (Uuid × Sender)) (k : Uuid) (v : Sender) :
    List (Uuid × Sender) :=
  (k, v) :: mapRemove m k

/-- The dispatch state, struct AppState (rbx_studio_server.rs lines 38 to
44): the FIFO `process_queue` of pending invocations, the correlation map
`output_map` from id to inbox sender, and the watch channel whose sender is
the `trigger` field and whose receiver `waiter` is owned by the state itself;
`waiterSeen` is the version mark of that owned receiver. -/
structure AppState (α : Type) where
  process_queue : List (ToolArguments α)
  output_map : List (Uuid × Sender)
  watch : WatchChannel
  waiterSeen : Nat
  deriving DecidableEq

/-- AppState::new (rbx_studio_server.rs lines 46 to 56): watch::channel
creates one sender and one live receiver and the state stores both, so the
fresh channel has exactly one live receiver. -/
def AppState.new (α : Type) : AppState α :=
  { process_queue := []
    output_map := []
    watch := { version := 0, receiverCount := 1 }
    waiterSeen := 0 }

/-- process_queue.push_back (rbx_studio_server.rs lines 1981 and 2046). -/
def AppState.push_back {α : Type} (s : AppState α) (x : ToolArguments α) :
    AppState α :=
  { s with process_queue := s.process_queue ++ [x] }

/-- process_queue.pop_front (rbx_studio_server.rs lines 2009 and 2063):
returns the front invocation, if any, and the state with it removed. -/
def AppState.pop_front {α : Type} (s : AppState α) :
    Option (ToolArguments α) × AppState α :=
  match s.process_queue with
  | [] => (none, s)
  | x :: rest => (some x, { s with process_queue := rest })

/-- state.waiter.clone() (rbx_studio_server.rs lines 2012 and 2061): one more
live receiver handle, inheriting the version mark of the owned waiter. -/
def AppState.clone_waiter {α : Type} (s : AppState α) :
    AppState α × WatchReceiver :=
  ({ s with watch :=
      { version := s.watch.version
        receiverCount := s.watch.receiverCount + 1 } },
    { seen := s.waiterSeen })

/-- ToolArguments::with_id (rbx_studio_server.rs lines 62 to 71): stamps a
fresh uuid onto the invocation, replacing whatever id it carried, and returns
the stamped invocation together with the id. The source draws the uuid from
Uuid::new_v4; here freshness is a parameter. -/
def ToolArguments.with_id {α : Type} (t : ToolArguments α) (fresh : Uuid) :
    ToolArguments α × Uuid :=
  ({ args := t.args, id := some fresh }, fresh)

/-- ToolArguments::new (rbx_studio_server.rs lines 59 to 61): builds an
envelope with no id and immediately stamps one. -/
def ToolArguments.new {α : Type} (args : α) (fresh : Uuid) :
    ToolArguments α × Uuid :=
  ToolArguments.with_id { args := args, id := none } fresh

/-- The long-poll deadline in seconds, LONG_POLL_DURATION
(rbx_studio_server.rs line 24): Duration::from_secs(15). -/
def LONG_POLL_DURATION : Nat := 15

/-- Result of generic_tool_run as seen by the MCP layer:
CallToolResult::success, CallToolResult::error (a tool-error result, an
ordinary failed tool call), or Err of ErrorData::internal_error (a
transport-level error). -/
inductive ToolRunResult where
  | success (text : String)
  | toolError (text : String)
  | internalError (msg : String)
  deriving DecidableEq

/-- First phase of generic_tool_run (rbx_studio_server.rs lines 1976 to
1987): mint the id, create the inbox channel, then under the lock push the
stamped command, insert the inbox under the id and clone the trigger; after
releasing the lock pulse the notifier. Returns the new state plus
`some internalError` when the pulse fails (the early return of line 1987) and
`none` when the dispatch proceeds to await the inbox. -/
def generic_tool_run_start {α : Type} (s : AppState α) (args : α)
    (fresh : Uuid) : AppState α × Option ToolRunResult :=
  let command := (ToolArguments.new args fresh).1
  let s1 := s.push_back command
  let s2 := { s1 with output_map := mapInsert s1.output_map fresh Sender.fresh }
  match s2.watch.send with
  | none => (s2, some (ToolRunResult.internalError "Unable to trigger send"))
  | some w => ({ s2 with watch := w }, none)

/-- Remaining phases of generic_tool_run (rbx_studio_server.rs lines 1988 to
2001): rx.recv() yielding nothing is the internal error (source text:
Couldn t receive response), raised before the removal block runs; a received
value first has its map entry removed under the lock and is then rendered,
Ok text as a success result and Err as a tool-error result carrying the
message text. -/
def generic_tool_run_finish {α : Type} (s : AppState α) (id : Uuid)
    (received : Option (Except String String)) : AppState α × ToolRunResult :=
  match received with
  | none => (s, ToolRunResult.internalError "Could not receive response")
  | some r =>
      let s1 := { s with output_map := mapRemove s.output_map id }
      match r with
      | Except.ok text => (s1, ToolRunResult.success text)
      | Except.error msg => (s1, ToolRunResult.toolError msg)

/-- Outcome of GET /request (rbx_studio_server.rs lines 2018 to 2021): either
Json(invocation) with status 200, the popped invocation carried along with
the queue remainder left behind by the pop, or the pair of
StatusCode::LOCKED and String::new(). -/
inductive RequestOutcome (α : Type) where
  | ok (inv : ToolArguments α) (remaining : List (ToolArguments α))
  | locked
  deriving DecidableEq

/-- HTTP status of the GET /request reply: 200 on a popped invocation, 423
(Locked) on deadline expiry. -/
def RequestOutcome.status {α : Type} : RequestOutcome α → Nat
  | RequestOutcome.ok _ _ => 200
  | RequestOutcome.locked => 423

/-- Body of the GET /request reply: the JSON-serialised invocation on 200,
nothing (the empty string) on 423. -/
def RequestOutcome.body {α : Type} : RequestOutcome α → Option (ToolArguments α)
  | RequestOutcome.ok inv _ => some inv
  | RequestOutcome.locked => none

/-- The request_handler loop (rbx_studio_server.rs lines 2004 to 2022)
abstracted over time: each element of the observation list is the queue
contents the handler sees at one acquisition of the lock, the first on entry
and one more after each notifier edge within the 15 second deadline;
exhausting the list is the deadline firing. A nonempty observation pops the
front under the lock and answers 200; the exhausted deadline answers 423
Locked with an empty body. -/
def request_handler_run {α : Type} :
    List (List (ToolArguments α)) → RequestOutcome α
  | [] => RequestOutcome.locked
  | q :: later =>
      match q with
      | [] => request_handler_run later
      | t :: qrest => RequestOutcome.ok t qrest

/-- Outcome of POST /response: Ok(()) is an empty 200 reply; an Err
propagated by the question mark operator becomes an error reply. -/
inductive ResponseOutcome where
  | ok
  | err (msg : String)
  deriving DecidableEq

/-- response_handler (rbx_studio_server.rs lines 2024 to 2035): under the
lock remove the inbox for payload.id, absence being the Unknown ID error;
then send Ok(payload.response) into it, a failed send (receiver dropped)
also propagating as an error. The third component is the inbox after the
attempted delivery, recording what was sent into it. -/
def response_handler {α : Type} (s : AppState α) (payload : RunCommandResponse) :
    AppState α × ResponseOutcome × Option Sender :=
  match mapLookup s.output_map payload.id with
  | none => (s, ResponseOutcome.err "Unknown ID", none)
  | some tx =>
      let s1 := { s with output_map := mapRemove s.output_map payload.id }
      match tx.send (Except.ok payload.response) with
      | none => (s1, ResponseOutcome.err "channel closed", some tx)
      | some tx1 => (s1, ResponseOutcome.ok, some tx1)

/-- First phase of proxy_handler (rbx_studio_server.rs lines 2037 to 2048):
extract the id from the body, absence being the error (source text: Got proxy
command with no id) raised before any mutation; then create an inbox and,
under the lock, push the command and register the inbox under the id. No
notifier pulse appears anywhere in this handler. -/
def proxy_handler_start {α : Type} (s : AppState α)
    (command : ToolArguments α) : AppState α × Except String Uuid :=
  match command.id with
  | none => (s, Except.error "Got proxy command with no id")
  | some id =>
      let s1 := s.push_back command
      let s2 := { s1 with output_map := mapInsert s1.output_map id Sender.fresh }
      (s2, Except.ok id)

/-- Second phase of proxy_handler (rbx_studio_server.rs lines 2049 to 2055):
await the inbox; rx.recv() yielding nothing is an error, and a received Err
value is propagated by the second question mark before the removal block
runs; a received Ok removes the map entry under the lock and answers
Json of the RunCommandResponse pair. -/
def proxy_handler_finish {α : Type} (s : AppState α) (id : Uuid)
    (received : Option (Except String String)) :
    AppState α × Except String RunCommandResponse :=
  match received with
  | none => (s, Except.error "Could not receive response")
  | some (Except.error msg) => (s, Except.error msg)
  | some (Except.ok response) =>
      ({ s with output_map := mapRemove s.output_map id },
        Except.ok { response := response, id := id })

/-- Outcome of the POST to /proxy as seen by the forwarder loop: a
transport-level failure (the send result is Err), or a body whose parse as
RunCommandResponse is mapped to its response string on success and to a
decode error on failure, as on rbx_studio_server.rs lines 2079 to 2083. -/
inductive ProxyNet where
  | transportErr
  | body (parsed : Except String String)
  deriving DecidableEq

/-- What one iteration of the forwarder loop did. -/
inductive DudOutcome where
  | idle
  | logged
  | delivered (inbox : Sender)
  | panicked (why : String)
  deriving DecidableEq

/-- One iteration of the body of dud_proxy_loop (rbx_studio_server.rs lines
2062 to 2091). Pop the front invocation under the lock; an empty queue parks
the loop on waiter.changed() (idle). Otherwise POST the entry to /proxy: a
transport error is logged and the loop continues (logged) with the map
untouched; on transport success the entry id is unwrapped, the inbox is
removed from the map and unwrapped, the parsed body is sent into it and the
send is unwrapped — each failing unwrap ends the task in a panic. -/
def dud_proxy_iteration {α : Type} (s : AppState α) (net : ProxyNet) :
    AppState α × DudOutcome :=
  match s.pop_front with
  | (none, s1) => (s1, DudOutcome.idle)
  | (some entry, s1) =>
      match net with
      | ProxyNet.transportErr => (s1, DudOutcome.logged)
      | ProxyNet.body parsed =>
          match entry.id with
          | none => (s1, DudOutcome.panicked "entry.id.unwrap() on None")
          | some id =>
              match mapLookup s1.output_map id with
              | none =>
                  (s1, DudOutcome.panicked "output_map.remove(id).unwrap() on None")
              | some tx =>
                  let s2 := { s1 with output_map := mapRemove s1.output_map id }
                  match tx.send parsed with
                  | none => (s2, DudOutcome.panicked "tx.send(res).unwrap() on Err")
                  | some tx1 => (s2, DudOutcome.delivered tx1)

/-- One operation on the process queue: a push_back of an invocation
(rbx_studio_server.rs lines 1981 and 2046) or a pop_front (lines 2009 and
2063). -/
inductive QueueOp (α : Type) where
  | push (x : ToolArguments α)
  | pop
  deriving DecidableEq

/-- Run a sequence of queue operations on a dispatch state; returns the final
state together with the invocations the pops returned, in pop order. A pop
on an empty queue returns nothing and changes nothing. -/
def runQueueOps {α : Type} (ops : List (QueueOp α)) (s : AppState α) :
    AppState α × List (ToolArguments α) :=
  match ops with
  | [] => (s, [])
  | QueueOp.push x :: rest => runQueueOps rest (s.push_back x)
  | QueueOp.pop :: rest =>
      match s.pop_front with
      | (none, s1) => runQueueOps rest s1
      | (some y, s1) =>
          let step := runQueueOps rest s1
          (step.1, y :: step.2)

/-- The invocations a sequence of queue operations enqueues, in order. -/
def pushedValues {α : Type} : List (QueueOp α) → List (ToolArguments α)
  | [] => []
  | QueueOp.push x :: rest => x :: pushedValues rest
  | QueueOp.pop :: rest => pushedValues rest

/-- A pulse succeeds whenever at least one receiver handle is live, bumping
the version by one. -/
theorem WatchChannel.send_of_receiver (c : WatchChannel)
    (h : 1 ≤ c.receiverCount) :
    c.send = some { c with version := c.version + 1 } := by
  unfold WatchChannel.send
  rw [if_neg]
  omega

/-- After removing a key, looking it up yields nothing. -/
theorem mapLookup_mapRemove_self (m : List (Uuid × Sender)) (k : Uuid) :
    mapLookup (mapRemove m k) k = none := by
  induction m with
  | nil => rfl
  | cons p rest ih =>
      obtain ⟨k1, v⟩ := p
      by_cases h : k1 = k
      · simp [mapRemove, h, ih]
      · simp [mapRemove, mapLookup, h, ih]

/-- Removing a key leaves every other key bound as before. -/
theorem mapLookup_mapRemove_other (m : List (Uuid × Sender)) (k k1 : Uuid)
    (h : k1 ≠ k) : mapLookup (mapRemove m k) k1 = mapLookup m k1 := by
  induction m with
  | nil => rfl
  | cons p rest ih =>
      obtain ⟨k2, v⟩ := p
      by_cases h2 : k2 = k
      · subst h2
        simp [mapRemove, mapLookup, Ne.symm h, ih]
      · by_cases h3 : k2 = k1 <;> simp [mapRemove, mapLookup, h2, h3, ih, h]

/-- Removing a key that is not bound leaves the map unchanged. -/
theorem mapRemove_of_lookup_none (m : List (Uuid × Sender)) (k : Uuid)
    (h : mapLookup m k = none) : mapRemove m k = m := by
  induction m with
  | nil => rfl
  | cons p rest ih =>
      obtain ⟨k1, v⟩ := p
      by_cases h1 : k1 = k
      · simp [mapLookup, h1] at h
      · simp [mapLookup, h1] at h
        simp [mapRemove, h1, ih h]

/-- Generalised FIFO invariant: the values popped by a sequence of queue
operations, followed by the invocations still queued, are the initial queue
contents followed by the pushed values, in order. -/
theorem runQueueOps_fifo {α : Type} (ops : List (QueueOp α)) (s : AppState α) :
    (runQueueOps ops s).2 ++ (runQueueOps ops s).1.process_queue =
      s.process_queue ++ pushedValues ops := by
  induction ops generalizing s with
  | nil => simp [runQueueOps, pushedValues]
  | cons op rest ih =>
      cases op with
      | push x =>
          simp [runQueueOps, pushedValues, ih, AppState.push_back]
      | pop =>
          rcases hq : s.process_queue with _ | ⟨y, q1⟩
          · simp [runQueueOps, AppState.pop_front, hq, pushedValues, ih]
          · simpa [runQueueOps, AppState.pop_front, hq, pushedValues] using
              ih { s with process_queue := q1 }

/-- The response endpoint never touches the watch channel. -/
theorem response_handler_watch {α : Type} (s : AppState α)
    (payload : RunCommandResponse) :
    (response_handler s payload).1.watch = s.watch := by
  rcases h : mapLookup s.output_map payload.id with _ | tx
  · simp [response_handler, h]
  · rcases hs : tx.send (Except.ok payload.response) with _ | tx1 <;>
      simp [response_handler, h, hs]

/-- The forwarder loop iteration never touches the watch channel. -/
theorem dud_proxy_iteration_watch {α : Type} (s : AppState α) (net : ProxyNet) :
    (dud_proxy_iteration s net).1.watch = s.watch := by
  rcases hq : s.process_queue with _ | ⟨entry, rest⟩
  · simp [dud_proxy_iteration, AppState.pop_front, hq]
  · cases net with
    | transportErr => simp [dud_proxy_iteration, AppState.pop_front, hq]
    | body parsed =>
        rcases hid : entry.id with _ | id
        · simp [dud_proxy_iteration, AppState.pop_front, hq, hid]
        · rcases hm : mapLookup s.output_map id with _ | tx
          · simp [dud_proxy_iteration, AppState.pop_front, hq, hid, hm]
          · rcases hs : tx.send parsed with _ | tx1 <;>
              simp [dud_proxy_iteration, AppState.pop_front, hq, hid, hm, hs]

/-- Claim C2: for every GET /request, if an invocation is or becomes
available at one of the queue checks within the 15 second window, the handler
pops it under the lock and answers status 200 with the JSON-serialised
invocation; if the window elapses with the queue empty at every check, it
answers status 423 (Locked) with an empty body; the deadline constant is 15
seconds. -/
theorem c2_long_poll_contract {α : Type}
    (obs pre post : List (List (ToolArguments α))) (x : ToolArguments α)
    (qrest : List (ToolArguments α))
    (hobs : ∀ q ∈ obs, q = []) (hpre : ∀ q ∈ pre, q = []) :
    (request_handler_run obs = RequestOutcome.locked ∧
      RequestOutcome.status (request_handler_run obs) = 423 ∧
      RequestOutcome.body (request_handler_run obs) = none) ∧
    (request_handler_run (pre ++ (x :: qrest) :: post) =
        RequestOutcome.ok x qrest ∧
      RequestOutcome.status (request_handler_run (pre ++ (x :: qrest) :: post)) =
        200 ∧
      RequestOutcome.body (request_handler_run (pre ++ (x :: qrest) :: post)) =
        some x) ∧
    LONG_POLL_DURATION = 15 := by
  have h1 : ∀ l : List (List (ToolArguments α)), (∀ q ∈ l, q = []) →
      request_handler_run l = RequestOutcome.locked := by
    intro l
    induction l with
    | nil => intro _; rfl
    | cons q rest ih =>
        intro hl
        have hq : q = [] := hl q (by simp)
        subst hq
        simpa [request_handler_run] using
          ih (fun r hr => hl r (List.mem_cons_of_mem _ hr))
  have h2 : ∀ l : List (List (ToolArguments α)), (∀ q ∈ l, q = []) →
      request_handler_run (l ++ (x :: qrest) :: post) =
        RequestOutcome.ok x qrest := by
    intro l
    induction l with
    | nil => intro _; rfl
    | cons q rest ih =>
        intro hl
        have hq : q = [] := hl q (by simp)
        subst hq
        simpa [request_handler_run] using
          ih (fun r hr => hl r (List.mem_cons_of_mem _ hr))
  refine ⟨⟨h1 obs hobs, ?_, ?_⟩, ⟨h2 pre hpre, ?_, ?_⟩, rfl⟩
  · rw [h1 obs hobs]; rfl
  · rw [h1 obs hobs]; rfl
  · rw [h2 pre hpre]; rfl
  · rw [h2 pre hpre]; rfl

/-- Witness for C2 at concrete inputs: two empty checks answer Locked, and a
queue holding one invocation at the second check answers 200 with it. -/
theorem c2_long_poll_contract_witness :
    request_handler_run (α := Unit) [[], []] = RequestOutcome.locked ∧
    request_handler_run
        ([[]] ++ (({ args := (), id := none } : ToolArguments Unit) :: []) :: [[]]) =
      RequestOutcome.ok { args := (), id := none } [] :=
  ⟨(c2_long_poll_contract [[], []] [[]] [[]] { args := (), id := none } []
      (by simp) (by simp)).1.1,
    (c2_long_poll_contract [[], []] [[]] [[]] { args := (), id := none } []
      (by simp) (by simp)).2.1.1⟩

/-- Claim C4: for every sequence of push_back and pop_front operations on the
dispatch state process queue, starting from the fresh state with an empty
queue, the invocations returned by the pops followed by the invocations still
queued are exactly the enqueued invocations in order: pops return invocations
in enqueue order (FIFO). -/
theorem c4_fifo_order {α : Type} (ops : List (QueueOp α)) :
    (runQueueOps ops (AppState.new α)).2 ++
        (runQueueOps ops (AppState.new α)).1.process_queue =
      pushedValues ops := by
  simpa [AppState.new] using runQueueOps_fifo ops (AppState.new α)

/-- Claim C6: the dispatcher renders the awaited inbox value — Ok text as a
success result, Err message as an MCP tool-error result carrying the message
(not a transport error), and an inbox closed without a value as an internal
error. -/
theorem c6_dispatch_result_mapping {α : Type} (s : AppState α) (id : Uuid)
    (text msg : String) :
    (generic_tool_run_finish s id (some (Except.ok text))).2 =
        ToolRunResult.success text ∧
    (generic_tool_run_finish s id (some (Except.error msg))).2 =
        ToolRunResult.toolError msg ∧
    (generic_tool_run_finish s id none).2 =
        ToolRunResult.internalError "Could not receive response" :=
  ⟨rfl, rfl, rfl⟩

/-- Claim C8: a dispatch that completes after receiving a value leaves no
inbox entry for its id in the correlation map — the tool dispatch entry for
any received value, the /proxy handler for a received Ok — and the final
removal is idempotent: when the id is already absent the map is returned
unchanged and no error arises. -/
theorem c8_inbox_absent_after_completion {α : Type} (s : AppState α)
    (id : Uuid) (r : Except String String) (text : String) :
    mapLookup (generic_tool_run_finish s id (some r)).1.output_map id = none ∧
    mapLookup (proxy_handler_finish s id (some (Except.ok text))).1.output_map
        id = none ∧
    (mapLookup s.output_map id = none →
      (generic_tool_run_finish s id (some r)).1.output_map = s.output_map ∧
      (proxy_handler_finish s id (some (Except.ok text))).1.output_map =
        s.output_map) := by
  refine ⟨?_, ?_, ?_⟩
  · cases r <;> simp [generic_tool_run_finish, mapLookup_mapRemove_self]
  · simp [proxy_handler_finish, mapLookup_mapRemove_self]
  · intro h
    constructor
    · cases r <;>
        simp [generic_tool_run_finish, mapRemove_of_lookup_none _ _ h]
    · simp [proxy_handler_finish, mapRemove_of_lookup_none _ _ h]

/-- Witness for C8 at concrete inputs: completion leaves id 3 unregistered,
and removal from a map without the key returns it unchanged. -/
theorem c8_inbox_absent_after_completion_witness :
    mapLookup (generic_tool_run_finish (AppState.new Unit) 3
        (some (Except.ok "done"))).1.output_map 3 = none ∧
    (generic_tool_run_finish (AppState.new Unit) 3
        (some (Except.ok "done"))).1.output_map = (AppState.new Unit).output_map :=
  ⟨(c8_inbox_absent_after_completion (AppState.new Unit) 3 (Except.ok "done")
      "t").1,
    ((c8_inbox_absent_after_completion (AppState.new Unit) 3 (Except.ok "done")
      "t").2.2 rfl).1⟩

/-- Claim C7: every invocation that enters the process queue carries a
correlation id — the tool dispatch entry stamps a fresh id before its
enqueue and preserves the all-ids-present queue invariant, and the /proxy
endpoint rejects a body without an id with an error and without mutating
the queue or the correlation map, while its accepted enqueues also preserve
the invariant. -/
theorem c7_queued_ids_present {α : Type} (s : AppState α) (args : α)
    (fresh : Uuid) (command : ToolArguments α)
    (hinv : ∀ e ∈ s.process_queue, e.id ≠ none) :
    (ToolArguments.new args fresh).1.id = some fresh ∧
    (∀ e ∈ (generic_tool_run_start s args fresh).1.process_queue,
      e.id ≠ none) ∧
    (command.id = none →
      proxy_handler_start s command =
        (s, Except.error "Got proxy command with no id")) ∧
    (command.id ≠ none →
      ∀ e ∈ (proxy_handler_start s command).1.process_queue, e.id ≠ none) := by
  have hqueue : (generic_tool_run_start s args fresh).1.process_queue =
      s.process_queue ++ [{ args := args, id := some fresh }] := by
    by_cases h : s.watch.receiverCount = 0 <;>
      simp [generic_tool_run_start, WatchChannel.send, AppState.push_back,
        ToolArguments.new, ToolArguments.with_id, h]
  refine ⟨rfl, ?_, ?_, ?_⟩
  · intro e he
    rw [hqueue] at he
    rcases List.mem_append.mp he with h1 | h1
    · exact hinv e h1
    · simp only [List.mem_singleton] at h1
      subst h1
      simp
  · intro hid
    simp [proxy_handler_start, hid]
  · intro hid
    rcases hcid : command.id with _ | cid
    · exact absurd hcid hid
    · intro e he
      simp only [proxy_handler_start, hcid, AppState.push_back] at he
      rcases List.mem_append.mp he with h1 | h1
      · exact hinv e h1
      · simp only [List.mem_singleton] at h1
        subst h1
        simp [hcid]

/-- Witness for C7 at concrete inputs: the stamped id is present, the fresh
state enqueue keeps all queued ids present, and an id-less proxy body is
rejected without mutation. -/
theorem c7_queued_ids_present_witness :
    (ToolArguments.new () 4).1.id = some 4 ∧
    (∀ e ∈ (generic_tool_run_start (AppState.new Unit) () 4).1.process_queue,
      e.id ≠ none) ∧
    proxy_handler_start (AppState.new Unit) { args := (), id := none } =
      (AppState.new Unit, Except.error "Got proxy command with no id") := by
  have h := c7_queued_ids_present (AppState.new Unit) () 4
    { args := (), id := none } (by intro e he; simp [AppState.new] at he)
  exact ⟨h.1, h.2.1, h.2.2.1 rfl⟩

/-- Claim C9: the fresh dispatch state owns its waiter, so the watch channel
starts with one live receiver; the state operations never drop it (queue
pushes and pops, the response endpoint and the forwarder iteration leave the
channel untouched, and cloning the waiter only adds a receiver); and whenever
at least one receiver is live the pulse in the tool dispatch entry succeeds,
so its internal-error branch is unreachable while the state is alive. -/
theorem c9_trigger_send_total {α : Type} (s : AppState α) (args : α)
    (fresh : Uuid) (x : ToolArguments α) (payload : RunCommandResponse)
    (net : ProxyNet) (hinv : 1 ≤ s.watch.receiverCount) :
    (AppState.new α).watch.receiverCount = 1 ∧
    (s.push_back x).watch = s.watch ∧
    s.pop_front.2.watch = s.watch ∧
    (response_handler s payload).1.watch = s.watch ∧
    (dud_proxy_iteration s net).1.watch = s.watch ∧
    s.clone_waiter.1.watch.receiverCount = s.watch.receiverCount + 1 ∧
    (generic_tool_run_start s args fresh).2 = none := by
  have hnz : ¬ s.watch.receiverCount = 0 := by omega
  refine ⟨rfl, rfl, ?_, response_handler_watch s payload,
    dud_proxy_iteration_watch s net, rfl, ?_⟩
  · rcases hq : s.process_queue with _ | ⟨y, rest⟩ <;>
      simp [AppState.pop_front, hq]
  · simp [generic_tool_run_start, WatchChannel.send, AppState.push_back, hnz]

/-- Witness for C9 at the fresh state, whose single live receiver is the
state-owned waiter: the pulse succeeds. -/
theorem c9_trigger_send_total_witness :
    (generic_tool_run_start (AppState.new Unit) () 1).2 = none :=
  (c9_trigger_send_total (AppState.new Unit) () 1 { args := (), id := none }
    { response := "r", id := 0 } ProxyNet.transportErr (by decide)).2.2.2.2.2.2

/-- Claim C10: in the forwarder loop, after a transport-success both unwraps
can end the task in a panic rather than logging and continuing — when the
dequeued entry id has no registered inbox (the remove unwrap), and when the
inbox is registered but its receiver has been dropped (the send unwrap). -/
theorem c10_transport_success_unwraps {α : Type} (s : AppState α)
    (entry : ToolArguments α) (rest : List (ToolArguments α)) (id : Uuid)
    (tx : Sender) (parsed : Except String String)
    (hq : s.process_queue = entry :: rest) (hid : entry.id = some id) :
    (mapLookup s.output_map id = none →
      (dud_proxy_iteration s (ProxyNet.body parsed)).2 =
        DudOutcome.panicked "output_map.remove(id).unwrap() on None") ∧
    (mapLookup s.output_map id = some tx → tx.alive = false →
      (dud_proxy_iteration s (ProxyNet.body parsed)).2 =
        DudOutcome.panicked "tx.send(res).unwrap() on Err") := by
  constructor
  · intro hm
    simp [dud_proxy_iteration, AppState.pop_front, hq, hid, hm]
  · intro hm halive
    simp [dud_proxy_iteration, AppState.pop_front, hq, hid, hm, Sender.send,
      halive]

/-- Witness for C10 at concrete inputs: an unregistered id panics the remove
unwrap, and a registered inbox with a dropped receiver panics the send
unwrap. -/
theorem c10_transport_success_unwraps_witness :
    (dud_proxy_iteration
        ({ process_queue := [{ args := (), id := some 2 }], output_map := [],
            watch := { version := 0, receiverCount := 1 }, waiterSeen := 0 } :
          AppState Unit)
        (ProxyNet.body (Except.ok "r"))).2 =
      DudOutcome.panicked "output_map.remove(id).unwrap() on None" ∧
    (dud_proxy_iteration
        ({ process_queue := [{ args := (), id := some 2 }],
            output_map := [(2, { sent := [], alive := false })],
            watch := { version := 0, receiverCount := 1 }, waiterSeen := 0 } :
          AppState Unit)
        (ProxyNet.body (Except.ok "r"))).2 =
      DudOutcome.panicked "tx.send(res).unwrap() on Err" :=
  ⟨(c10_transport_success_unwraps _ { args := (), id := some 2 } [] 2
      { sent := [], alive := false } (Except.ok "r") rfl rfl).1 rfl,
    (c10_transport_success_unwraps _ { args := (), id := some 2 } [] 2
      { sent := [], alive := false } (Except.ok "r") rfl rfl).2 rfl rfl⟩

/-- Claim C1 counterexample: the /proxy endpoint performs a successful
enqueue — starting from the fresh state with a cloned receiver, the command
is appended to the queue and an inbox is registered under its id — yet the
change-notifier is not pulsed: the receiver cloned before the enqueue
observes no edge afterwards, refuting the claim for the /proxy path. -/
theorem c1_counterexample :
    (proxy_handler_start (AppState.new Unit).clone_waiter.1
        { args := (), id := some 0 }).2 = Except.ok 0 ∧
    (proxy_handler_start (AppState.new Unit).clone_waiter.1
        { args := (), id := some 0 }).1.process_queue =
      [{ args := (), id := some 0 }] ∧
    mapLookup (proxy_handler_start (AppState.new Unit).clone_waiter.1
        { args := (), id := some 0 }).1.output_map 0 = some Sender.fresh ∧
    WatchReceiver.observesEdge (AppState.new Unit).clone_waiter.2
        (proxy_handler_start (AppState.new Unit).clone_waiter.1
          { args := (), id := some 0 }).1.watch = false := by
  decide

/-- Claim C1 amended: an enqueue performed by the tool dispatch entry pulses
the change-notifier after the enqueue, so any receiver cloned before the
enqueue (its seen mark at most the version before) observes an edge; the
/proxy endpoint, by contrast, enqueues without pulsing, leaving the watch
channel untouched, so such a receiver observes no new edge from it. -/
theorem c1_pulse_only_on_dispatch_path {α : Type} (s : AppState α) (args : α)
    (fresh : Uuid) (r : WatchReceiver) (command : ToolArguments α) (id : Uuid)
    (halive : 1 ≤ s.watch.receiverCount) (hseen : r.seen ≤ s.watch.version)
    (hid : command.id = some id) :
    ((generic_tool_run_start s args fresh).1.watch.version =
        s.watch.version + 1 ∧
      r.observesEdge (generic_tool_run_start s args fresh).1.watch = true) ∧
    ((proxy_handler_start s command).1.watch = s.watch ∧
      r.observesEdge (proxy_handler_start s command).1.watch =
        r.observesEdge s.watch) := by
  have hnz : ¬ s.watch.receiverCount = 0 := by omega
  have hwatch : (generic_tool_run_start s args fresh).1.watch =
      { version := s.watch.version + 1,
        receiverCount := s.watch.receiverCount } := by
    simp [generic_tool_run_start, WatchChannel.send, AppState.push_back, hnz]
  refine ⟨⟨by rw [hwatch], ?_⟩, ?_, ?_⟩
  · rw [hwatch]
    simp only [WatchReceiver.observesEdge, decide_eq_true_eq]
    omega
  · simp [proxy_handler_start, hid, AppState.push_back]
  · simp [proxy_handler_start, hid, AppState.push_back]

/-- Witness for the amended C1 at concrete inputs: the dispatch-path enqueue
bumps the version so the pre-existing receiver sees an edge, and the proxy
path leaves the channel as it was. -/
theorem c1_pulse_only_on_dispatch_path_witness :
    WatchReceiver.observesEdge { seen := 0 }
        (generic_tool_run_start (AppState.new Unit) () 3).1.watch = true ∧
    (proxy_handler_start (AppState.new Unit)
        { args := (), id := some 5 }).1.watch = (AppState.new Unit).watch :=
  ⟨(c1_pulse_only_on_dispatch_path (AppState.new Unit) () 3 { seen := 0 }
      { args := (), id := some 5 } 5 (by decide) (by decide) rfl).1.2,
    (c1_pulse_only_on_dispatch_path (AppState.new Unit) () 3 { seen := 0 }
      { args := (), id := some 5 } 5 (by decide) (by decide) rfl).2.1⟩

/-- Claim C3 counterexample: with one queued invocation whose id 7 has a
registered inbox, a /proxy round trip that succeeds at the transport level
but whose body fails to parse does not leave the inbox registered: the
iteration removes it from the correlation map and sends the parse error into
it, refuting the claim for the parse-failure case. -/
theorem c3_counterexample :
    mapLookup
        ({ process_queue := [{ args := (), id := some 7 }],
            output_map := [(7, Sender.fresh)],
            watch := { version := 0, receiverCount := 1 }, waiterSeen := 0 } :
          AppState Unit).output_map 7 = some Sender.fresh ∧
    mapLookup (dud_proxy_iteration
        ({ process_queue := [{ args := (), id := some 7 }],
            output_map := [(7, Sender.fresh)],
            watch := { version := 0, receiverCount := 1 }, waiterSeen := 0 } :
          AppState Unit)
        (ProxyNet.body (Except.error "error decoding response body"))).1.output_map
        7 = none ∧
    (dud_proxy_iteration
        ({ process_queue := [{ args := (), id := some 7 }],
            output_map := [(7, Sender.fresh)],
            watch := { version := 0, receiverCount := 1 }, waiterSeen := 0 } :
          AppState Unit)
        (ProxyNet.body (Except.error "error decoding response body"))).2 =
      DudOutcome.delivered
        { sent := [Except.error "error decoding response body"], alive := true } := by
  refine ⟨rfl, rfl, rfl⟩

/-- Claim C3 amended: in the forwarder loop of a secondary instance, a
transport-level failure of the POST /proxy round trip is logged and the loop
continues with the correlation map untouched, the inbox left registered; a
round trip that succeeds at the transport level but whose body fails to parse
instead removes the inbox for the dequeued id from the correlation map and
sends the parse error into it, and the loop continues. -/
theorem c3_forwarder_error_paths {α : Type} (s : AppState α)
    (entry : ToolArguments α) (rest : List (ToolArguments α)) (id : Uuid)
    (tx : Sender) (msg : String)
    (hq : s.process_queue = entry :: rest) (hid : entry.id = some id)
    (htx : mapLookup s.output_map id = some tx) (halive : tx.alive = true) :
    dud_proxy_iteration s ProxyNet.transportErr =
        ({ s with process_queue := rest }, DudOutcome.logged) ∧
    (dud_proxy_iteration s (ProxyNet.body (Except.error msg))).1.output_map =
        mapRemove s.output_map id ∧
    mapLookup (dud_proxy_iteration s
        (ProxyNet.body (Except.error msg))).1.output_map id = none ∧
    (dud_proxy_iteration s (ProxyNet.body (Except.error msg))).2 =
      DudOutcome.delivered { tx with sent := tx.sent ++ [Except.error msg] } := by
  refine ⟨?_, ?_, ?_, ?_⟩
  · simp [dud_proxy_iteration, AppState.pop_front, hq]
  · simp [dud_proxy_iteration, AppState.pop_front, hq, hid, htx, Sender.send,
      halive]
  · simp [dud_proxy_iteration, AppState.pop_front, hq, hid, htx, Sender.send,
      halive, mapLookup_mapRemove_self]
  · simp [dud_proxy_iteration, AppState.pop_front, hq, hid, htx, Sender.send,
      halive]

/-- Witness for the amended C3 at concrete inputs: the transport failure
leaves the registered inbox in place while the parse failure removes it. -/
theorem c3_forwarder_error_paths_witness :
    (dud_proxy_iteration
        ({ process_queue := [{ args := (), id := some 9 }],
            output_map := [(9, Sender.fresh)],
            watch := { version := 0, receiverCount := 1 }, waiterSeen := 0 } :
          AppState Unit) ProxyNet.transportErr).1.output_map =
      [(9, Sender.fresh)] ∧
    mapLookup (dud_proxy_iteration
        ({ process_queue := [{ args := (), id := some 9 }],
            output_map := [(9, Sender.fresh)],
            watch := { version := 0, receiverCount := 1 }, waiterSeen := 0 } :
          AppState Unit) (ProxyNet.body (Except.error "bad"))).1.output_map 9 =
      none := by
  have h := c3_forwarder_error_paths
    ({ process_queue := [{ args := (), id := some 9 }],
        output_map := [(9, Sender.fresh)],
        watch := { version := 0, receiverCount := 1 }, waiterSeen := 0 } :
      AppState Unit)
    { args := (), id := some 9 } [] 9 Sender.fresh "bad" rfl rfl rfl rfl
  exact ⟨by rw [h.1], h.2.2.1⟩

/-- Claim C5 counterexample: an inbox is registered under id 5, but its
receiver half has been dropped; POST /response with that id does not answer
200 — the send fails and the error propagates — and the inbox is removed
nonetheless, refuting the claim that a registered id always yields 200. -/
theorem c5_counterexample :
    mapLookup
        ({ process_queue := [], output_map := [(5, { sent := [], alive := false })],
            watch := { version := 0, receiverCount := 1 }, waiterSeen := 0 } :
          AppState Unit).output_map 5 = some { sent := [], alive := false } ∧
    (response_handler
        ({ process_queue := [], output_map := [(5, { sent := [], alive := false })],
            watch := { version := 0, receiverCount := 1 }, waiterSeen := 0 } :
          AppState Unit) { response := "r", id := 5 }).2.1 =
      ResponseOutcome.err "channel closed" ∧
    (response_handler
        ({ process_queue := [], output_map := [(5, { sent := [], alive := false })],
            watch := { version := 0, receiverCount := 1 }, waiterSeen := 0 } :
          AppState Unit) { response := "r", id := 5 }).1.output_map = [] := by
  refine ⟨rfl, rfl, rfl⟩

/-- Claim C5 amended: for every POST /response carrying a reply, if an inbox
is registered under the id and its receiver is still open, exactly that inbox
is removed from the correlation map (other entries and the queue untouched),
Ok(response) is sent into it and the endpoint responds 200; if the registered
inbox has a dropped receiver it is still removed but the endpoint responds
with an error; and if no inbox is registered the endpoint responds with an
error and neither the correlation map, any other inbox, nor the queue is
mutated. -/
theorem c5_response_routing {α : Type} (s : AppState α)
    (payload : RunCommandResponse) (tx : Sender) :
    (mapLookup s.output_map payload.id = some tx → tx.alive = true →
      (response_handler s payload).1.output_map =
          mapRemove s.output_map payload.id ∧
      mapLookup (response_handler s payload).1.output_map payload.id = none ∧
      (∀ k, k ≠ payload.id →
        mapLookup (response_handler s payload).1.output_map k =
          mapLookup s.output_map k) ∧
      (response_handler s payload).1.process_queue = s.process_queue ∧
      (response_handler s payload).2.1 = ResponseOutcome.ok ∧
      (response_handler s payload).2.2 =
        some { tx with sent := tx.sent ++ [Except.ok payload.response] }) ∧
    (mapLookup s.output_map payload.id = none →
      (response_handler s payload).1 = s ∧
      (response_handler s payload).2.1 = ResponseOutcome.err "Unknown ID") ∧
    (mapLookup s.output_map payload.id = some tx → tx.alive = false →
      (response_handler s payload).1.output_map =
          mapRemove s.output_map payload.id ∧
      (response_handler s payload).2.1 = ResponseOutcome.err "channel closed") := by
  refine ⟨?_, ?_, ?_⟩
  · intro hm halive
    have houtm : (response_handler s payload).1.output_map =
        mapRemove s.output_map payload.id := by
      simp [response_handler, hm, Sender.send, halive]
    refine ⟨houtm, ?_, ?_, ?_, ?_, ?_⟩
    · rw [houtm]
      exact mapLookup_mapRemove_self _ _
    · intro k hk
      rw [houtm]
      exact mapLookup_mapRemove_other _ _ _ hk
    · simp [response_handler, hm, Sender.send, halive]
    · simp [response_handler, hm, Sender.send, halive]
    · simp [response_handler, hm, Sender.send, halive]
  · intro hm
    constructor <;> simp [response_handler, hm]
  · intro hm halive
    constructor <;> simp [response_handler, hm, Sender.send, halive]

/-- Witness for the amended C5 at concrete inputs: a registered open inbox
yields 200 with the response delivered, and an unregistered id yields the
Unknown ID error with the state unchanged. -/
theorem c5_response_routing_witness :
    (response_handler
        ({ process_queue := [], output_map := [(6, Sender.fresh)],
            watch := { version := 0, receiverCount := 1 }, waiterSeen := 0 } :
          AppState Unit) { response := "out", id := 6 }).2.1 =
      ResponseOutcome.ok ∧
    (response_handler (AppState.new Unit) { response := "out", id := 6 }).2.1 =
      ResponseOutcome.err "Unknown ID" :=
  ⟨((c5_response_routing
      ({ process_queue := [], output_map := [(6, Sender.fresh)],
          watch := { version := 0, receiverCount := 1 }, waiterSeen := 0 } :
        AppState Unit) { response := "out", id := 6 } Sender.fresh).1
      rfl rfl).2.2.2.2.1,
    ((c5_response_routing (AppState.new Unit) { response := "out", id := 6 }
      Sender.fresh).2.1 rfl).2⟩
